import Mathlib

/-!
Verification development for `generate_schema_doc.py`, a one-shot generator of a
Word document describing DLT-META JSON configuration schemas.  The script builds
an in-memory document (headings, paragraphs, tables, page breaks) with the
python-docx library and saves it to a fixed path.

We embed the document model shallowly: a document is a list of block-level
elements; a table is a grid of cells; a cell holds the runs of its single
paragraph (every cell this program touches has exactly one paragraph).  Cell
mutation (`cell.text = s`, then forcing run fonts) becomes functional update.
A Python `IndexError` (indexing `row_cells[col_idx]` out of range) is modelled
with `Except String`.  `main` is parametrised by an ambient clock string so that
independence of the output from the date and time of a run is expressible; the source
never consults the clock.
-/

namespace SchemaDoc

/-- An RGB color triple, as in `docx.shared.RGBColor(r, g, b)`. -/
abbrev RGB := Nat × Nat × Nat

/-- The font attributes of a run that the script ever sets; `none` means the
attribute is left inherited (python-docx `None`). -/
structure Font where
  bold : Option Bool := none
  italic : Option Bool := none
  sizePt : Option Nat := none
  colorRgb : Option RGB := none
  fontName : Option String := none
deriving DecidableEq

/-- A run of text inside a paragraph. -/
structure Run where
  text : String
  font : Font := {}
deriving DecidableEq

/-- One `w:...` border edge element produced by `add_table_borders`:
attributes `w:val`, `w:sz`, `w:space`, `w:color`. -/
structure Border where
  name : String
  val : String
  sz : String
  space : String
  color : String
deriving DecidableEq

/-- A table cell: the runs of its single paragraph, plus the optional
`w:shd` fill attribute appended to the tcPr of the cell. -/
structure DocCell where
  runs : List Run := []
  fill : Option String := none
deriving DecidableEq

/-- The text of a cell: concatenation of its run texts (a fresh cell has one
empty paragraph and no runs, so its text is the empty string). -/
def DocCell.text (c : DocCell) : String :=
  String.join (c.runs.map Run.text)

/-- A table: named style, the border edges of its `tblPr`, and the grid of
cells, row major, header row first. -/
structure DocTable where
  style : String
  borders : List Border
  rows : List (List DocCell)
deriving DecidableEq

/-- A block-level document element. `heading level runs alignment`,
`para runs style alignment`. -/
inductive Block where
  | heading (level : Nat) (runs : List Run) (alignment : Option String)
  | para (runs : List Run) (style : Option String) (alignment : Option String)
  | table (t : DocTable)
  | pageBreak
deriving DecidableEq

/-- The assembled document: core-property metadata plus the block sequence. -/
structure Document where
  title : String
  author : String
  blocks : List Block
deriving DecidableEq

/-- A Python value placed into a table cell (the script only ever passes
strings, but `str(cell_data)` coerces any value). -/
inductive PyVal where
  | str (s : String)
  | bool (b : Bool)
  | int (n : Int)
deriving DecidableEq

instance {ε α : Type} [DecidableEq ε] [DecidableEq α] : DecidableEq (Except ε α) := fun x y =>
  match x, y with
  | .ok a, .ok b =>
    if h : a = b then .isTrue (by rw [h])
    else .isFalse (fun hc => h (by cases hc; rfl))
  | .error a, .error b =>
    if h : a = b then .isTrue (by rw [h])
    else .isFalse (fun hc => h (by cases hc; rfl))
  | .ok _, .error _ => .isFalse (fun hc => Except.noConfusion hc)
  | .error _, .ok _ => .isFalse (fun hc => Except.noConfusion hc)

/-- Python `str()` on the values of `PyVal`. -/
def pyStr : PyVal → String
  | .str s => s
  | .bool b => if b then "True" else "False"
  | .int n => toString n

/-- A freshly created table cell: one empty paragraph, no shading. -/
def emptyCell : DocCell := {}

/-- Assignment `cell.text = s`: python-docx clears the cell and adds one paragraph with
one run carrying `s` (a run is added even when `s` is empty). -/
def DocCell.setText (c : DocCell) (s : String) : DocCell :=
  { c with runs := [{ text := s }] }

/-- One border edge as built in the loop of `add_table_borders`:
`w:val="single"`, `w:sz="4"`, `w:space="0"`, `w:color="000000"`. -/
def borderEdge (n : String) : Border :=
  { name := n, val := "single", sz := "4", space := "0", color := "000000" }

/-- The six edges appended by `add_table_borders`, in loop order. -/
def tblBorders : List Border :=
  ["top", "left", "bottom", "right", "insideH", "insideV"].map borderEdge

/-- Function `add_table_borders(table)`: appends a `w:tblBorders` element with the six
solid edges to the table properties. -/
def add_table_borders (t : DocTable) : DocTable :=
  { t with borders := t.borders ++ tblBorders }

/-- The header-row run styling: `bold = True`, `size = Pt(10)`,
`color = RGBColor(255, 255, 255)`. -/
def styleHeaderRun (r : Run) : Run :=
  { r with font := { r.font with
      bold := some true,
      sizePt := some 10,
      colorRgb := some (255, 255, 255) } }

/-- Processing of one header cell: set its text, style every run, then append
the `w:shd` shading element with `w:fill="0070C0"`. -/
def makeHeaderCell (c : DocCell) (h : String) : DocCell :=
  let c1 := c.setText h
  let c2 := { c1 with runs := c1.runs.map styleHeaderRun }
  { c2 with fill := some "0070C0" }

/-- The body-row run styling: `size = Pt(9)` only. -/
def styleBodyRun (r : Run) : Run :=
  { r with font := { r.font with sizePt := some 9 } }

/-- Processing of one body cell: set its text to `str(cell_data)` and force
the size of each run to 9pt. -/
def makeBodyCell (c : DocCell) (v : PyVal) : DocCell :=
  let c1 := c.setText (pyStr v)
  { c1 with runs := c1.runs.map styleBodyRun }

/-- Loop `for i, x in enumerate(vs): cells[i] = f(cells[i], x)` — positional update
of the cells of a row; indexing past the end of `cells` raises an index error. -/
def fillCells (f : DocCell → α → DocCell) : List DocCell → List α → Except String (List DocCell)
  | cells, [] => .ok cells
  | [], _ :: _ => .error "IndexError"
  | c :: cs, v :: vs => (fillCells f cs vs).map (fun rest => f c v :: rest)

/-- The data-row loop of `create_schema_table`: each row of `rows` fills a
fresh table row of `headers.length` cells, in order, stopping at the first
`IndexError`. -/
def fillRows (headers : List String) : List (List PyVal) → Except String (List (List DocCell))
  | [] => .ok []
  | r :: rs =>
    match fillCells makeBodyCell (List.replicate headers.length emptyCell) r with
    | .error e => .error e
    | .ok cells =>
      match fillRows headers rs with
      | .error e => .error e
      | .ok rest => .ok (cells :: rest)

/-- Function `create_schema_table(doc, title, headers, rows)`: the blocks appended to
the document on success.  A truthy (non-empty) title first appends a level-2
heading whose run is colored `RGBColor(0, 51, 102)`; then a table of
`len(rows) + 1` rows and `len(headers)` columns with style
`Light Grid Accent 1` and the six borders; header row from `headers`, data
rows from `rows`; finally one empty spacing paragraph. -/
def create_schema_table (title : String) (headers : List String)
    (rows : List (List PyVal)) : Except String (List Block) :=
  let titleBlocks : List Block :=
    if title = "" then []
    else [Block.heading 2 [{ text := title, font := { colorRgb := some (0, 51, 102) } }] none]
  match fillCells makeHeaderCell (List.replicate headers.length emptyCell) headers with
  | .error e => .error e
  | .ok hdrCells =>
    match fillRows headers rows with
    | .error e => .error e
    | .ok bodyRows =>
      .ok (titleBlocks ++
        [Block.table (add_table_borders
          { style := "Light Grid Accent 1", borders := [], rows := hdrCells :: bodyRows }),
         Block.para [] none none])

/-- Sanity check: full evaluation of one small call, with the header styling,
body styling, borders and spacing paragraph spelled out. -/
theorem create_schema_table_concrete_eval :
    create_schema_table "T" ["a", "b"] [[.str "x", .str "y"]] =
      .ok [Block.heading 2 [{ text := "T", font := { colorRgb := some (0, 51, 102) } }] none,
        Block.table
          { style := "Light Grid Accent 1",
            borders := tblBorders,
            rows := [
              [{ runs := [{ text := "a", font := { bold := some true, sizePt := some 10, colorRgb := some (255, 255, 255) } }], fill := some "0070C0" },
               { runs := [{ text := "b", font := { bold := some true, sizePt := some 10, colorRgb := some (255, 255, 255) } }], fill := some "0070C0" }],
              [{ runs := [{ text := "x", font := { sizePt := some 9 } }] },
               { runs := [{ text := "y", font := { sizePt := some 9 } }] }]] },
        Block.para [] none none] := by
  decide

/-- Sanity check: a data row longer than the header list raises. -/
theorem create_schema_table_concrete_overflow :
    create_schema_table "" ["a"] [[.str "x", .str "y"]] = .error "IndexError" := by
  decide

/-- The header list passed to every `create_schema_table` call in `main`. -/
def schemaHeaders : List String :=
  ["Field Name", "Type", "Mandatory", "Description"]

/-- Literal `onboarding_data`: the main onboarding-schema field rows. -/
def onboarding_data : List (List String) := [
  ["data_flow_id", "String", "✅ Yes", "Unique identifier for the pipeline"],
  ["data_flow_group", "String", "✅ Yes", "Group identifier for launching multiple pipelines under single DLT Pipeline"],
  ["source_system", "String", "❌ Optional", "Source system identifier (e.g., MYSQL, ORACLE, SAP)"],
  ["source_format", "String", "✅ Yes", "Source format: cloudFiles, eventhub, kafka, delta, snapshot"],
  ["source_details", "Object", "✅ Yes", "Source-specific configuration (see subsection 1.1)"],
  ["bronze_catalog_\x7benv\x7d", "String", "⚠️ Recommended", "Unity Catalog name for bronze layer (env = dev/prod/staging)"],
  ["bronze_database_\x7benv\x7d", "String", "✅ Yes", "Delta Lake bronze database name"],
  ["bronze_table", "String", "✅ Yes", "Delta Lake bronze table name"],
  ["bronze_table_comment", "String", "❌ Optional", "Bronze table comment/description"],
  ["bronze_reader_options", "Object", "❌ Optional", "Spark reader options (e.g., \x7b\"header\": \"true\"\x7d)"],
  ["bronze_partition_columns", "String/Array", "❌ Optional", "Bronze table partition columns list"],
  ["bronze_table_cluster_by", "Array", "❌ Optional", "Bronze table cluster by columns list"],
  ["bronze_cdc_apply_changes", "Object", "❌ Optional", "Bronze CDC apply changes configuration (see subsection 1.2)"],
  ["bronze_apply_changes_from_snapshot", "Object", "❌ Optional", "Bronze apply changes from snapshot config (see subsection 1.3)"],
  ["bronze_table_path_\x7benv\x7d", "String", "⚠️ Conditional", "Bronze table storage path (mandatory if UC not enabled)"],
  ["bronze_table_properties", "Object", "❌ Optional", "DLT table properties (e.g., \x7b\"pipelines.autoOptimize.managed\": \"false\"\x7d)"],
  ["bronze_sink", "Object", "❌ Optional", "DLT Sink API properties for bronze layer (see subsection 1.5)"],
  ["bronze_data_quality_expectations_json_\x7benv\x7d", "String", "❌ Optional", "Path to bronze DQE JSON file"],
  ["bronze_catalog_quarantine_\x7benv\x7d", "String", "❌ Optional", "Unity Catalog name for quarantine data"],
  ["bronze_database_quarantine_\x7benv\x7d", "String", "❌ Optional", "Database for quarantine data that fails expectations"],
  ["bronze_quarantine_table", "String", "❌ Optional", "Table name for quarantine data"],
  ["bronze_quarantine_table_comment", "String", "❌ Optional", "Quarantine table comment"],
  ["bronze_quarantine_table_path_\x7benv\x7d", "String", "❌ Optional", "Quarantine table storage path"],
  ["bronze_quarantine_table_partitions", "Array", "❌ Optional", "Quarantine table partition columns"],
  ["bronze_quarantine_table_cluster_by", "Array", "❌ Optional", "Quarantine table cluster columns"],
  ["bronze_quarantine_table_properties", "Object", "❌ Optional", "DLT table properties for quarantine table"],
  ["bronze_append_flows", "Array", "❌ Optional", "Bronze table append flows configuration (see subsection 1.4)"],
  ["silver_catalog_\x7benv\x7d", "String", "⚠️ Recommended", "Unity Catalog name for silver layer"],
  ["silver_database_\x7benv\x7d", "String", "⚠️ Conditional", "Silver database name (mandatory for silver layer)"],
  ["silver_table", "String", "⚠️ Conditional", "Silver table name (mandatory for silver layer)"],
  ["silver_table_comment", "String", "❌ Optional", "Silver table comment/description"],
  ["silver_partition_columns", "Array", "❌ Optional", "Silver table partition columns list"],
  ["silver_table_cluster_by", "Array", "❌ Optional", "Silver table cluster by columns list"],
  ["silver_cdc_apply_changes", "Object", "❌ Optional", "Silver CDC apply changes configuration (see subsection 1.2)"],
  ["silver_apply_changes_from_snapshot", "Object", "❌ Optional", "Silver apply changes from snapshot configuration"],
  ["silver_table_path_\x7benv\x7d", "String", "⚠️ Conditional", "Silver table storage path (mandatory if UC not enabled for silver layer)"],
  ["silver_table_properties", "Object", "❌ Optional", "DLT table properties for silver table"],
  ["silver_sink", "Object", "❌ Optional", "DLT Sink API properties for silver layer"],
  ["silver_transformation_json_\x7benv\x7d", "String", "⚠️ Conditional", "Path to silver transformation JSON file (mandatory for silver layer)"],
  ["silver_data_quality_expectations_json_\x7benv\x7d", "String", "❌ Optional", "Path to silver DQE JSON file"],
  ["silver_append_flows", "Array", "❌ Optional", "Silver table append flows configuration"]]

/-- Literal `cloudfiles_data`: source-details rows for the CloudFiles source format. -/
def cloudfiles_data : List (List String) := [
  ["source_database", "String", "❌ Optional", "Source database name"],
  ["source_table", "String", "❌ Optional", "Source table name"],
  ["source_path_\x7benv\x7d", "String", "✅ Yes", "Source file path for CloudFiles"],
  ["source_schema_path", "String", "✅ Yes", "Path to DDL schema file (Spark DDL format)"],
  ["source_metadata", "Object", "❌ Optional", "Metadata configuration for _metadata columns"],
  ["source_metadata.include_autoloader_metadata_column", "String", "❌ Optional", "\"True\"/\"False\" to add _metadata column"],
  ["source_metadata.autoloader_metadata_col_name", "String", "❌ Optional", "Rename _metadata column (default: \"source_metadata\")"],
  ["source_metadata.select_metadata_cols", "Object", "❌ Optional", "Extract columns from _metadata (e.g., \x7b\"input_file_name\": \"_metadata.file_name\"\x7d)"]]

/-- Literal `eventhub_data`: source-details rows for the EventHub source format. -/
def eventhub_data : List (List String) := [
  ["source_schema_path", "String", "✅ Yes", "Path to DDL schema file"],
  ["eventhub.accessKeyName", "String", "✅ Yes", "EventHub access key name"],
  ["eventhub.accessKeySecretName", "String", "✅ Yes", "EventHub access key secret name"],
  ["eventhub.name", "String", "✅ Yes", "EventHub name"],
  ["eventhub.secretsScopeName", "String", "✅ Yes", "Databricks secrets scope name"],
  ["eventhub.namespace", "String", "✅ Yes", "EventHub namespace"],
  ["eventhub.port", "String", "✅ Yes", "EventHub port (typically \"9093\")"],
  ["kafka.sasl.mechanism", "String", "✅ Yes", "SASL mechanism (typically \"PLAIN\")"],
  ["kafka.security.protocol", "String", "✅ Yes", "Security protocol (typically \"SASL_SSL\")"]]

/-- Literal `snapshot_data`: source-details rows for the Snapshot source format. -/
def snapshot_data : List (List String) := [
  ["source_path_\x7benv\x7d", "String", "✅ Yes", "Path to snapshot files"],
  ["snapshot_format", "String", "✅ Yes", "Snapshot file format (e.g., \"csv\", \"parquet\")"]]

/-- Literal `cdc_data`: rows of the CDC apply-changes object table. -/
def cdc_data : List (List String) := [
  ["keys", "Array", "✅ Yes", "Primary key columns for CDC operations"],
  ["sequence_by", "String", "✅ Yes", "Column used for ordering changes (e.g., timestamp)"],
  ["scd_type", "String", "✅ Yes", "Slowly Changing Dimension type: \"1\" or \"2\""],
  ["where", "String", "❌ Optional", "Filter condition for applying changes"],
  ["ignore_null_updates", "Boolean", "❌ Optional", "Whether to ignore null updates (default: false)"],
  ["apply_as_deletes", "String", "❌ Optional", "Expression to identify delete operations (e.g., \"operation = \x27DELETE\x27\")"],
  ["apply_as_truncates", "String", "❌ Optional", "Expression to identify truncate operations"],
  ["column_list", "Array", "❌ Optional", "Specific columns to include in CDC"],
  ["except_column_list", "Array", "❌ Optional", "Columns to exclude from CDC (e.g., [\"operation\", \"_rescued_data\"])"],
  ["track_history_column_list", "Array", "❌ Optional", "Columns to track history for (SCD Type 2)"],
  ["track_history_except_column_list", "Array", "❌ Optional", "Columns to exclude from history tracking"],
  ["flow_name", "String", "❌ Optional", "Custom flow name"],
  ["once", "Boolean", "❌ Optional", "Process data once (default: false)"],
  ["ignore_null_updates_column_list", "Array", "❌ Optional", "Specific columns to ignore null updates"],
  ["ignore_null_updates_except_column_list", "Array", "❌ Optional", "Columns to exclude from ignore null updates"]]

/-- Literal `snapshot_changes_data`: rows of the apply-changes-from-snapshot table. -/
def snapshot_changes_data : List (List String) := [
  ["keys", "Array", "✅ Yes", "Primary key columns for snapshot tracking"],
  ["scd_type", "String", "✅ Yes", "Slowly Changing Dimension type: \"1\" or \"2\""],
  ["track_history_column_list", "Array", "❌ Optional", "Columns to track history for (SCD Type 2)"],
  ["track_history_except_column_list", "Array", "❌ Optional", "Columns to exclude from history tracking"]]

/-- Literal `append_flows_data`: rows of the append-flows array object table. -/
def append_flows_data : List (List String) := [
  ["name", "String", "✅ Yes", "Unique name for the append flow"],
  ["source_format", "String", "✅ Yes", "Source format for append flow"],
  ["create_streaming_table", "Boolean", "✅ Yes", "Whether to create streaming table (true/false)"],
  ["source_details", "Object", "✅ Yes", "Source details (same structure as main source_details)"],
  ["comment", "String", "❌ Optional", "Append flow comment/description"],
  ["reader_options", "Object", "❌ Optional", "Spark reader options"],
  ["spark_conf", "Object", "❌ Optional", "Spark configuration for this flow"],
  ["once", "Boolean", "❌ Optional", "Process data once (default: false)"],
  ["target", "String", "❌ Optional", "Target table name for silver append flows"]]

/-- Literal `sink_data`: rows of the sink-object table. -/
def sink_data : List (List String) := [
  ["name", "String", "✅ Yes", "Sink name identifier"],
  ["format", "String", "✅ Yes", "Sink format: delta, kafka, eventhub"],
  ["options", "Object", "✅ Yes", "Format-specific options (e.g., \x7b\"tableName\": \"catalog.schema.table\"\x7d for delta)"],
  ["select_exp", "Array", "❌ Optional", "SQL expressions to apply before sinking"],
  ["where_clause", "String", "❌ Optional", "Filter condition before sinking"]]

/-- Literal `silver_transform_data`: rows of the silver-transformations table. -/
def silver_transform_data : List (List String) := [
  ["target_table", "String", "✅ Yes", "Target silver table name for transformation output"],
  ["select_exp", "Array", "✅ Yes", "Array of SQL expressions/column selections (e.g., [\"concat(first_name,\x27 \x27,last_name) as full_name\"])"],
  ["target_partition_cols", "Array", "❌ Optional", "Partition columns for the target table"],
  ["where_clause", "Array", "❌ Optional", "Array of filter conditions to apply (e.g., [\"country = \x27United States\x27\"])"]]

/-- Literal `dqe_data`: rows of the data-quality-expectations table. -/
def dqe_data : List (List String) := [
  ["expect", "Object", "❌ Optional", "Rules where failing records are INCLUDED in target dataset. Key=rule name, Value=SQL condition"],
  ["expect_or_fail", "Object", "❌ Optional", "Rules where failing records HALT pipeline execution. Key=rule name, Value=SQL condition"],
  ["expect_or_drop", "Object", "❌ Optional", "Rules where failing records are DROPPED from target dataset. Key=rule name, Value=SQL condition"],
  ["expect_or_quarantine", "Object", "❌ Optional", "Rules where failing records go to quarantine table (Bronze layer only). Key=rule name, Value=SQL condition"]]

/-- The literal silver-transformations example block added after section 2. -/
def silverExample : String :=
  "[\n  \x7b\n    \"target_table\": \"cars_usa\",\n    \"select_exp\": [\n      \"concat(first_name,\x27 \x27,last_name) as full_name\",\n      \"country\",\n      \"brand\",\n      \"model\"\n    ],\n    \"where_clause\": [\"country = \x27United States\x27\"]\n  \x7d\n]"

/-- The literal DQE example block added after section 3. -/
def dqeExample : String :=
  "\x7b\n  \"expect_or_drop\": \x7b\n    \"no_rescued_data\": \"_rescued_data IS NULL\",\n    \"valid_id\": \"id IS NOT NULL\"\n  \x7d,\n  \"expect_or_quarantine\": \x7b\n    \"quarantine_rule\": \"_rescued_data IS NOT NULL OR id IS NULL OR amount=0\"\n  \x7d\n\x7d"

/-- The runs of the table-of-contents paragraph, one per `add_run` call. -/
def tocRuns : List Run := [
  { text := "1. Onboarding JSON Schema (Data Flow Specification)\n" },
  { text := "   1.1 Source Details Object\n" },
  { text := "   1.2 CDC Apply Changes Object\n" },
  { text := "   1.3 Apply Changes From Snapshot Object\n" },
  { text := "   1.4 Append Flows Array Object\n" },
  { text := "   1.5 Sink Object (DLT Sink API)\n" },
  { text := "2. Silver Transformations JSON Schema\n" },
  { text := "3. Data Quality Expectations (DQE) JSON Schema\n" }]

/-- The eight literal caveat strings of the closing Notes section. -/
def notes_list : List String := [
  "\x7benv\x7d placeholder represents environment suffix: _dev, _prod, _staging, _it, etc.",
  "Mandatory Fields (✅): Must be provided in all cases",
  "Conditional Fields (⚠️ Conditional): Required based on context (e.g., bronze_table_path_\x7benv\x7d is mandatory only when Unity Catalog is not enabled; silver fields are mandatory when defining silver layer)",
  "Recommended Fields (⚠️ Recommended): Highly recommended for Unity Catalog environments",
  "Optional Fields (❌): Can be omitted",
  "All JSON files must be valid JSON format and accessible from the Databricks workspace",
  "Schema files referenced in source_schema_path should be in Spark DDL format",
  "Source code validation occurs in src/onboard_dataflowspec.py and src/dataflow_spec.py"]

/-- The hardcoded absolute path `main` saves the document to. -/
def output_path : String :=
  "/Users/paulambasu/Downloads/Development/Databricks/dlt-meta/DLT-META_JSON_Schema_Documentation.docx"

/-- Entry point `main()`: the document assembled by the script, in block order.  The
`clock` parameter stands for the ambient date/time a run could observe; the
source never consults it (the generation-date paragraph is the literal
f-string literal `Generated: October 23, 2025` with no placeholder), so the result is
independent of `clock`. -/
def mainDoc (clock : String) : Except String Document := do
  let _ := clock
  let tOnboarding ← create_schema_table "Main Configuration Fields" schemaHeaders
    (onboarding_data.map (List.map PyVal.str))
  let tCloudfiles ← create_schema_table "" schemaHeaders
    (cloudfiles_data.map (List.map PyVal.str))
  let tEventhub ← create_schema_table "" schemaHeaders
    (eventhub_data.map (List.map PyVal.str))
  let tSnapshot ← create_schema_table "" schemaHeaders
    (snapshot_data.map (List.map PyVal.str))
  let tCdc ← create_schema_table "" schemaHeaders
    (cdc_data.map (List.map PyVal.str))
  let tSnapshotChanges ← create_schema_table "" schemaHeaders
    (snapshot_changes_data.map (List.map PyVal.str))
  let tAppendFlows ← create_schema_table "" schemaHeaders
    (append_flows_data.map (List.map PyVal.str))
  let tSink ← create_schema_table "" schemaHeaders
    (sink_data.map (List.map PyVal.str))
  let tSilver ← create_schema_table "" schemaHeaders
    (silver_transform_data.map (List.map PyVal.str))
  let tDqe ← create_schema_table "" schemaHeaders
    (dqe_data.map (List.map PyVal.str))
  .ok
    { title := "DLT-META JSON Configuration Schemas",
      author := "DLT-META",
      blocks :=
        [Block.heading 1
           [{ text := "DLT-META JSON Configuration Schemas",
              font := { sizePt := some 24, colorRgb := some (0, 51, 102) } }] (some "CENTER"),
         Block.para
           [{ text := "Complete Reference Guide",
              font := { italic := some true, sizePt := some 14 } }] none (some "CENTER"),
         Block.para [] none none,
         Block.para [{ text := "Generated: October 23, 2025" }] none none,
         Block.pageBreak,
         Block.heading 1 [{ text := "Table of Contents" }] none,
         Block.para tocRuns none none,
         Block.pageBreak,
         Block.heading 1 [{ text := "1. Onboarding JSON Schema (Data Flow Specification)" }] none,
         Block.para
           [{ text := "This is the main configuration file for defining data pipelines in DLT-META." }]
           none none] ++
        tOnboarding ++
        [Block.pageBreak,
         Block.heading 2 [{ text := "1.1 Source Details Object" }] none,
         Block.heading 3 [{ text := "For CloudFiles Source Format:" }] none] ++
        tCloudfiles ++
        [Block.heading 3 [{ text := "For EventHub Source Format:" }] none] ++
        tEventhub ++
        [Block.heading 3 [{ text := "For Snapshot Source Format:" }] none] ++
        tSnapshot ++
        [Block.pageBreak,
         Block.heading 2 [{ text := "1.2 CDC Apply Changes Object" }] none] ++
        tCdc ++
        [Block.pageBreak,
         Block.heading 2 [{ text := "1.3 Apply Changes From Snapshot Object" }] none] ++
        tSnapshotChanges ++
        [Block.heading 2 [{ text := "1.4 Append Flows Array Object" }] none] ++
        tAppendFlows ++
        [Block.pageBreak,
         Block.heading 2 [{ text := "1.5 Sink Object (DLT Sink API)" }] none] ++
        tSink ++
        [Block.pageBreak,
         Block.heading 1 [{ text := "2. Silver Transformations JSON Schema" }] none,
         Block.para
           [{ text := "This file defines SQL transformations for silver layer tables." }] none none] ++
        tSilver ++
        [Block.heading 3 [{ text := "Example:" }] none,
         Block.para
           [{ text := silverExample, font := { sizePt := some 9, fontName := some "Courier New" } }]
           none none,
         Block.pageBreak,
         Block.heading 1 [{ text := "3. Data Quality Expectations (DQE) JSON Schema" }] none,
         Block.para
           [{ text := "This file defines data quality rules for bronze or silver layers." }] none none] ++
        tDqe ++
        [Block.heading 3 [{ text := "Example:" }] none,
         Block.para
           [{ text := dqeExample, font := { sizePt := some 9, fontName := some "Courier New" } }]
           none none,
         Block.pageBreak,
         Block.heading 1 [{ text := "Notes" }] none] ++
        notes_list.map (fun note =>
          Block.para [{ text := note, font := { sizePt := some 10 } }] (some "List Bullet") none) }

/-! ### Structural lemmas about the cell-filling loops -/

theorem fillCells_eq_of_le {α : Type} (f : DocCell → α → DocCell) :
    ∀ (vs : List α) (cells : List DocCell), vs.length ≤ cells.length →
      fillCells f cells vs = .ok (List.zipWith f cells vs ++ cells.drop vs.length)
  | [], cells, _ => by simp [fillCells]
  | v :: vs, [], h => by simp at h
  | v :: vs, c :: cs, h => by
    have ih := fillCells_eq_of_le f vs cs (by simpa using h)
    simp [fillCells, ih, Except.map]

theorem fillCells_err_of_lt {α : Type} (f : DocCell → α → DocCell) :
    ∀ (vs : List α) (cells : List DocCell), cells.length < vs.length →
      fillCells f cells vs = .error "IndexError"
  | [], cells, h => by simp at h
  | v :: vs, [], _ => by simp [fillCells]
  | v :: vs, c :: cs, h => by
    have ih := fillCells_err_of_lt f vs cs (by simpa using h)
    simp [fillCells, ih, Except.map]

theorem zipWith_replicate_left {α β γ : Type} (f : α → β → γ) (c : α) :
    ∀ (vs : List β) (n : Nat), vs.length ≤ n →
      List.zipWith f (List.replicate n c) vs = vs.map (f c)
  | [], n, _ => by simp
  | v :: vs, 0, h => by simp at h
  | v :: vs, n + 1, h => by
    have ih := zipWith_replicate_left f c vs n (by simpa using h)
    simp [List.replicate_succ, ih]

theorem fillCells_replicate {α : Type} (f : DocCell → α → DocCell) (n : Nat) (vs : List α)
    (h : vs.length ≤ n) :
    fillCells f (List.replicate n emptyCell) vs =
      .ok (vs.map (f emptyCell) ++ List.replicate (n - vs.length) emptyCell) := by
  rw [fillCells_eq_of_le f vs _ (by simpa using h)]
  rw [zipWith_replicate_left f emptyCell vs n h, List.drop_replicate]

/-- The final shape of one body row: the row values in order, then untouched
fresh cells padding out to the column count of the table. -/
def bodyRowCells (headers : List String) (r : List PyVal) : List DocCell :=
  r.map (makeBodyCell emptyCell) ++ List.replicate (headers.length - r.length) emptyCell

theorem fillRows_eq_of_le (headers : List String) :
    ∀ rows : List (List PyVal), (∀ r ∈ rows, r.length ≤ headers.length) →
      fillRows headers rows = .ok (rows.map (bodyRowCells headers))
  | [], _ => by simp [fillRows]
  | r :: rs, h => by
    have h1 : r.length ≤ headers.length := h r (by simp)
    have ih := fillRows_eq_of_le headers rs (fun x hx => h x (by simp [hx]))
    simp [fillRows, fillCells_replicate makeBodyCell headers.length r h1, ih, bodyRowCells]

theorem fillRows_err (headers : List String) :
    ∀ rows : List (List PyVal), (∃ r ∈ rows, headers.length < r.length) →
      fillRows headers rows = .error "IndexError"
  | [], h => by simp at h
  | r :: rs, h => by
    by_cases h1 : r.length ≤ headers.length
    · have hex : ∃ x ∈ rs, headers.length < x.length := by
        obtain ⟨x, hx, hlen⟩ := h
        rcases List.mem_cons.mp hx with rfl | hx'
        · omega
        · exact ⟨x, hx', hlen⟩
      have ih := fillRows_err headers rs hex
      simp [fillRows, fillCells_replicate makeBodyCell headers.length r h1, ih]
    · have hlt : headers.length < r.length := by omega
      have herr := fillCells_err_of_lt makeBodyCell r (List.replicate headers.length emptyCell)
        (by simpa using hlt)
      simp [fillRows, herr]

/-! ### Closed form of `create_schema_table` -/

/-- The level-2 title heading appended for a truthy title. -/
def headingBlock (title : String) : Block :=
  Block.heading 2 [{ text := title, font := { colorRgb := some (0, 51, 102) } }] none

/-- The table built by `create_schema_table headers rows` on success. -/
def schemaTable (headers : List String) (rows : List (List PyVal)) : DocTable :=
  add_table_borders
    { style := "Light Grid Accent 1", borders := [],
      rows := headers.map (makeHeaderCell emptyCell) :: rows.map (bodyRowCells headers) }

/-- The block list appended by a successful `create_schema_table` call. -/
def createBlocks (title : String) (headers : List String) (rows : List (List PyVal)) : List Block :=
  (if title = "" then [] else [headingBlock title]) ++
    [Block.table (schemaTable headers rows), Block.para [] none none]

theorem create_schema_table_ok_of_le (title : String) (headers : List String)
    (rows : List (List PyVal)) (h : ∀ r ∈ rows, r.length ≤ headers.length) :
    create_schema_table title headers rows = .ok (createBlocks title headers rows) := by
  have hhdr := fillCells_replicate makeHeaderCell headers.length headers (le_refl _)
  have hrows := fillRows_eq_of_le headers rows h
  simp [create_schema_table, hhdr, hrows, createBlocks, schemaTable, headingBlock]

theorem create_schema_table_err (title : String) (headers : List String)
    (rows : List (List PyVal)) (h : ∃ r ∈ rows, headers.length < r.length) :
    create_schema_table title headers rows = .error "IndexError" := by
  have hhdr := fillCells_replicate makeHeaderCell headers.length headers (le_refl _)
  have hrows := fillRows_err headers rows h
  simp [create_schema_table, hhdr, hrows]

theorem create_schema_table_ok_inv {title : String} {headers : List String}
    {rows : List (List PyVal)} {out : List Block}
    (h : create_schema_table title headers rows = .ok out) :
    (∀ r ∈ rows, r.length ≤ headers.length) ∧ out = createBlocks title headers rows := by
  by_cases hall : ∀ r ∈ rows, r.length ≤ headers.length
  · rw [create_schema_table_ok_of_le title headers rows hall] at h
    exact ⟨hall, (Except.ok.inj h).symm⟩
  · push_neg at hall
    obtain ⟨r, hr, hlen⟩ := hall
    rw [create_schema_table_err title headers rows ⟨r, hr, hlen⟩] at h
    exact absurd h (by simp)

/-- Projection of a block to its table, when it is a table block. -/
def tableOf : Block → Option DocTable
  | .table t => some t
  | _ => none

theorem filterMap_tableOf_createBlocks (title : String) (headers : List String)
    (rows : List (List PyVal)) :
    (createBlocks title headers rows).filterMap tableOf = [schemaTable headers rows] := by
  by_cases h : title = "" <;> simp [createBlocks, h, headingBlock, tableOf]

theorem bodyRowCells_length (headers : List String) (r : List PyVal)
    (h : r.length ≤ headers.length) :
    (bodyRowCells headers r).length = headers.length := by
  simp [bodyRowCells]; omega

theorem schemaTable_rows_length (headers : List String) (rows : List (List PyVal)) :
    (schemaTable headers rows).rows.length = rows.length + 1 := by
  simp [schemaTable, add_table_borders]

theorem schemaTable_row_width (headers : List String) (rows : List (List PyVal))
    (h : ∀ r ∈ rows, r.length ≤ headers.length) :
    ∀ row ∈ (schemaTable headers rows).rows, row.length = headers.length := by
  intro row hrow
  simp [schemaTable, add_table_borders] at hrow
  rcases hrow with rfl | ⟨r, hr, rfl⟩
  · simp
  · exact bodyRowCells_length headers r (h r hr)

theorem makeHeaderCell_emptyCell (h : String) :
    makeHeaderCell emptyCell h =
      { runs := [{ text := h, font := { bold := some true, sizePt := some 10, colorRgb := some (255, 255, 255) } }],
        fill := some "0070C0" } := rfl

theorem makeBodyCell_emptyCell (v : PyVal) :
    makeBodyCell emptyCell v =
      { runs := [{ text := pyStr v, font := { sizePt := some 9 } }], fill := none } := rfl

/-- The tables among the blocks a `create_schema_table` call returns
(none when the call raised). -/
def tablesOfResult (r : Except String (List Block)) : List DocTable :=
  match r with
  | .ok bs => bs.filterMap tableOf
  | .error _ => []

/-- Whether a block is a heading. -/
def isHeading : Block → Bool
  | .heading _ _ _ => true
  | _ => false

/-! ### Claim theorems about `create_schema_table` -/

/-- Claim C1: every completed call to `create_schema_table doc title headers
rows` appends exactly one table, and that table has exactly `rows.length + 1`
rows, each of exactly `headers.length` columns. -/
theorem create_schema_table_dims (title : String) (headers : List String)
    (rows : List (List PyVal)) (out : List Block)
    (h : create_schema_table title headers rows = .ok out) :
    ∃ t : DocTable, out.filterMap tableOf = [t] ∧
      t.rows.length = rows.length + 1 ∧ ∀ row ∈ t.rows, row.length = headers.length := by
  obtain ⟨hle, rfl⟩ := create_schema_table_ok_inv h
  exact ⟨schemaTable headers rows, filterMap_tableOf_createBlocks title headers rows,
    schemaTable_rows_length headers rows, schemaTable_row_width headers rows hle⟩

theorem create_schema_table_dims_witness :
    ∃ out, create_schema_table "T" ["A", "B"] [[PyVal.str "x", PyVal.str "y"]] = .ok out ∧
      ∃ t : DocTable, out.filterMap tableOf = [t] ∧
        t.rows.length = 2 ∧ ∀ row ∈ t.rows, row.length = 2 := by
  refine ⟨_, rfl, ?_⟩
  exact create_schema_table_dims "T" ["A", "B"] [[PyVal.str "x", PyVal.str "y"]] _ rfl

/-- Claim C3 counterexample: in the table created by a concrete call, all six
border edges carry width attribute `w:sz = "4"` (eighths of a point, i.e.
0.5 pt), not a 1-unit width: the claimed "solid 1-unit-wide black line" is
false of the code, which always writes the width value 4. -/
theorem create_schema_table_border_width_counterexample :
    ((tablesOfResult (create_schema_table "" ["A"] [])).map
        (fun t => t.borders.map Border.sz)) = [["4", "4", "4", "4", "4", "4"]] ∧
      ("4" : String) ≠ "1" := by
  exact ⟨rfl, by decide⟩

/-- Claim C3 (amended): for every completed call to `create_schema_table`, all
six border edges of the created table (top, left, bottom, right,
inside-horizontal, inside-vertical) are unconditionally overridden to a solid
black line of width value 4 (eighths of a point, i.e. 0.5 pt), regardless of
the named table style applied. -/
theorem create_schema_table_borders (title : String) (headers : List String)
    (rows : List (List PyVal)) (out : List Block)
    (h : create_schema_table title headers rows = .ok out) :
    ∀ t ∈ out.filterMap tableOf,
      t.borders = [borderEdge "top", borderEdge "left", borderEdge "bottom",
        borderEdge "right", borderEdge "insideH", borderEdge "insideV"] ∧
      ∀ b ∈ t.borders, b.val = "single" ∧ b.sz = "4" ∧ b.color = "000000" := by
  obtain ⟨hle, rfl⟩ := create_schema_table_ok_inv h
  intro t ht
  rw [filterMap_tableOf_createBlocks] at ht
  simp at ht
  subst ht
  have hb : (schemaTable headers rows).borders = [borderEdge "top", borderEdge "left",
      borderEdge "bottom", borderEdge "right", borderEdge "insideH", borderEdge "insideV"] := rfl
  refine ⟨hb, ?_⟩
  rw [hb]
  decide

theorem create_schema_table_borders_witness :
    ∃ out, create_schema_table "T" ["A"] [[PyVal.str "x"]] = .ok out ∧
      ∀ t ∈ out.filterMap tableOf,
        t.borders = [borderEdge "top", borderEdge "left", borderEdge "bottom",
          borderEdge "right", borderEdge "insideH", borderEdge "insideV"] ∧
        ∀ b ∈ t.borders, b.val = "single" ∧ b.sz = "4" ∧ b.color = "000000" := by
  refine ⟨_, rfl, ?_⟩
  exact create_schema_table_borders "T" ["A"] [[PyVal.str "x"]] _ rfl

/-- Claim C4: in every completed call, for every body row `i` and every column
`j` holding a value of that input row, the body cell `(i, j)` of the created
table has text `str(rows[i][j])` and consists of a single run of font size 9pt
with no bold and no color override (those font fields stay `none`). -/
theorem create_schema_table_body_cells (title : String) (headers : List String)
    (rows : List (List PyVal)) (out : List Block)
    (h : create_schema_table title headers rows = .ok out) :
    ∀ t ∈ out.filterMap tableOf, ∀ (i j : Nat) (r : List PyVal) (v : PyVal),
      rows[i]? = some r → r[j]? = some v →
      ∃ row, t.rows[i + 1]? = some row ∧
        row[j]? = some { runs := [{ text := pyStr v, font := { sizePt := some 9 } }],
                         fill := none } := by
  obtain ⟨hle, rfl⟩ := create_schema_table_ok_inv h
  intro t ht i j r v hi hj
  rw [filterMap_tableOf_createBlocks] at ht
  simp at ht
  subst ht
  refine ⟨bodyRowCells headers r, ?_, ?_⟩
  · show ((headers.map (makeHeaderCell emptyCell) ::
        rows.map (bodyRowCells headers)) : List (List DocCell))[i + 1]? = _
    rw [List.getElem?_cons_succ, List.getElem?_map, hi, Option.map_some']
  · have hjlt : j < r.length := (List.getElem?_eq_some.mp hj).1
    show ((r.map (makeBodyCell emptyCell) ++
      List.replicate (headers.length - r.length) emptyCell) : List DocCell)[j]? = _
    rw [List.getElem?_append, if_pos (by simpa using hjlt), List.getElem?_map, hj,
      Option.map_some', makeBodyCell_emptyCell]

theorem create_schema_table_body_cells_witness :
    ∃ out, create_schema_table "T" ["A", "B"] [[PyVal.str "x", PyVal.str "y"]] = .ok out ∧
      ∀ t ∈ out.filterMap tableOf, ∀ (i j : Nat) (r : List PyVal) (v : PyVal),
        ([[PyVal.str "x", PyVal.str "y"]] : List (List PyVal))[i]? = some r → r[j]? = some v →
        ∃ row, t.rows[i + 1]? = some row ∧
          row[j]? = some { runs := [{ text := pyStr v, font := { sizePt := some 9 } }],
                           fill := none } := by
  refine ⟨_, rfl, ?_⟩
  exact create_schema_table_body_cells "T" ["A", "B"] [[PyVal.str "x", PyVal.str "y"]] _ rfl

/-- Claim C5: in every completed call, for every index `j` of `headers`, cell
`j` of the header row has text `headers[j]`, is a single run forced bold, 10pt
and white, and carries the solid blue `w:fill = "0070C0"` shading applied at
the XML level. -/
theorem create_schema_table_header_cells (title : String) (headers : List String)
    (rows : List (List PyVal)) (out : List Block)
    (h : create_schema_table title headers rows = .ok out) :
    ∀ t ∈ out.filterMap tableOf, ∀ (j : Nat) (hd : String), headers[j]? = some hd →
      ∃ row, t.rows[0]? = some row ∧
        row[j]? = some { runs := [{ text := hd, font := { bold := some true, sizePt := some 10, colorRgb := some (255, 255, 255) } }], fill := some "0070C0" } := by
  obtain ⟨hle, rfl⟩ := create_schema_table_ok_inv h
  intro t ht j hd hj
  rw [filterMap_tableOf_createBlocks] at ht
  simp at ht
  subst ht
  refine ⟨headers.map (makeHeaderCell emptyCell), by simp [schemaTable, add_table_borders], ?_⟩
  rw [List.getElem?_map, hj, Option.map_some', makeHeaderCell_emptyCell]

theorem create_schema_table_header_cells_witness :
    ∃ out, create_schema_table "T" ["A", "B"] [[PyVal.str "x", PyVal.str "y"]] = .ok out ∧
      ∀ t ∈ out.filterMap tableOf, ∀ (j : Nat) (hd : String),
        (["A", "B"] : List String)[j]? = some hd →
        ∃ row, t.rows[0]? = some row ∧
          row[j]? = some { runs := [{ text := hd, font := { bold := some true, sizePt := some 10, colorRgb := some (255, 255, 255) } }], fill := some "0070C0" } := by
  refine ⟨_, rfl, ?_⟩
  exact create_schema_table_header_cells "T" ["A", "B"] [[PyVal.str "x", PyVal.str "y"]] _ rfl

/-- Claim C6: a call with an empty list of data rows completes without error
and the resulting table has exactly one row — the header row — with
`headers.length` columns. -/
theorem create_schema_table_empty_rows (title : String) (headers : List String) :
    ∃ out, create_schema_table title headers [] = .ok out ∧
      ∃ t : DocTable, out.filterMap tableOf = [t] ∧
        t.rows.length = 1 ∧ ∀ row ∈ t.rows, row.length = headers.length := by
  refine ⟨_, create_schema_table_ok_of_le title headers [] (by simp), ?_⟩
  exact ⟨schemaTable headers [], filterMap_tableOf_createBlocks title headers [],
    schemaTable_rows_length headers [], schemaTable_row_width headers [] (by simp)⟩

/-- Claim C8: a completed call appends a level-2 heading — whose single run is
colored with the fixed accent `RGBColor(0, 51, 102)` — before the table if and
only if `title` is non-empty (Python truthiness of a string); with an empty
title no heading at all is appended, and the table is produced either way. -/
theorem create_schema_table_title_heading (title : String) (headers : List String)
    (rows : List (List PyVal)) (out : List Block)
    (h : create_schema_table title headers rows = .ok out) :
    (title ≠ "" → out.head? = some (headingBlock title) ∧
      out.filter isHeading = [headingBlock title]) ∧
      (title = "" → out.filter isHeading = []) ∧
      (out.filterMap tableOf).length = 1 := by
  obtain ⟨hle, rfl⟩ := create_schema_table_ok_inv h
  refine ⟨?_, ?_, ?_⟩
  · intro ht
    constructor
    · simp [createBlocks, ht]
    · simp [createBlocks, ht, isHeading, headingBlock, tableOf, List.filter]
  · intro ht
    simp [createBlocks, ht, isHeading, tableOf, List.filter]
  · rw [filterMap_tableOf_createBlocks]
    rfl

theorem create_schema_table_title_heading_witness :
    (∃ out, create_schema_table "T" ["A"] [] = .ok out ∧
      (("T" : String) ≠ "" → out.head? = some (headingBlock "T") ∧
        out.filter isHeading = [headingBlock "T"]) ∧
      (("T" : String) = "" → out.filter isHeading = []) ∧
      (out.filterMap tableOf).length = 1) ∧
    (∃ out, create_schema_table "" ["A"] [] = .ok out ∧
      (("" : String) ≠ "" → out.head? = some (headingBlock "") ∧
        out.filter isHeading = [headingBlock ""]) ∧
      (("" : String) = "" → out.filter isHeading = []) ∧
      (out.filterMap tableOf).length = 1) := by
  constructor
  · exact ⟨_, rfl, create_schema_table_title_heading "T" ["A"] [] _ rfl⟩
  · exact ⟨_, rfl, create_schema_table_title_heading "" ["A"] [] _ rfl⟩

/-- Claim C10: if some data row has more entries than `headers.length`, the
body-filling loop indexes past the end of the table row and the call fails
with an IndexError; if every data row has at most `headers.length` entries,
the call succeeds and the unfilled trailing cells of a short row keep empty
text (they stay fresh cells with no runs). -/
theorem create_schema_table_ragged_rows (title : String) (headers : List String)
    (rows : List (List PyVal)) :
    ((∃ r ∈ rows, headers.length < r.length) →
        create_schema_table title headers rows = .error "IndexError") ∧
      ((∀ r ∈ rows, r.length ≤ headers.length) →
        ∃ out, create_schema_table title headers rows = .ok out ∧
          ∀ t ∈ out.filterMap tableOf, ∀ (i j : Nat) (r : List PyVal),
            rows[i]? = some r → r.length ≤ j → j < headers.length →
            ∃ row, t.rows[i + 1]? = some row ∧
              ∃ cell, row[j]? = some cell ∧ cell.runs = [] ∧ cell.text = "") := by
  constructor
  · exact create_schema_table_err title headers rows
  · intro hle
    refine ⟨_, create_schema_table_ok_of_le title headers rows hle, ?_⟩
    intro t ht i j r hi hjlo hjhi
    rw [filterMap_tableOf_createBlocks] at ht
    simp at ht
    subst ht
    refine ⟨bodyRowCells headers r, ?_, ?_⟩
    · show ((headers.map (makeHeaderCell emptyCell) ::
          rows.map (bodyRowCells headers)) : List (List DocCell))[i + 1]? = _
      rw [List.getElem?_cons_succ, List.getElem?_map, hi, Option.map_some']
    · refine ⟨emptyCell, ?_, rfl, rfl⟩
      show ((r.map (makeBodyCell emptyCell) ++
        List.replicate (headers.length - r.length) emptyCell) : List DocCell)[j]? = _
      rw [List.getElem?_append, if_neg (by simpa using not_lt.mpr hjlo),
        List.getElem?_replicate]
      rw [if_pos (by simp; omega)]

theorem create_schema_table_ragged_rows_witness :
    (create_schema_table "T" ["A"] [[PyVal.str "x", PyVal.str "y"]] = .error "IndexError") ∧
      (∃ out, create_schema_table "T" ["A", "B"] [[PyVal.str "x"]] = .ok out ∧
        ∀ t ∈ out.filterMap tableOf, ∀ (i j : Nat) (r : List PyVal),
          ([[PyVal.str "x"]] : List (List PyVal))[i]? = some r → r.length ≤ j → j < 2 →
          ∃ row, t.rows[i + 1]? = some row ∧
            ∃ cell, row[j]? = some cell ∧ cell.runs = [] ∧ cell.text = "") := by
  constructor
  · exact (create_schema_table_ragged_rows "T" ["A"] [[PyVal.str "x", PyVal.str "y"]]).1
      ⟨[PyVal.str "x", PyVal.str "y"], by simp, by decide⟩
  · exact (create_schema_table_ragged_rows "T" ["A", "B"] [[PyVal.str "x"]]).2 (by decide)

/-! ### Claim theorems about `main` -/

/-- Whether a block is a heading one of whose runs carries exactly text `s`. -/
def isHeadingWithText (s : String) : Block → Bool
  | .heading _ rs _ => rs.any (fun r => r.text == s)
  | _ => false

/-- The blocks strictly between the heading titled `first` and the heading
titled `stop`. -/
def sectionBetween (first stop : String) (bs : List Block) : List Block :=
  ((bs.dropWhile (fun b => ! isHeadingWithText first b)).drop 1).takeWhile
    (fun b => ! isHeadingWithText stop b)

/-- The Source Details section of the generated document: everything between
the `1.1 Source Details Object` heading and the `1.2 CDC Apply Changes Object`
heading. -/
def sourceDetailsSection (clock : String) : List Block :=
  match mainDoc clock with
  | .ok d => sectionBetween "1.1 Source Details Object" "1.2 CDC Apply Changes Object" d.blocks
  | .error _ => []

/-- The tables of the generated document, in document order. -/
def docTables (r : Except String Document) : List DocTable :=
  match r with
  | .ok d => d.blocks.filterMap tableOf
  | .error _ => []

/-- The structure of a table: row count, column count, and the cell texts. -/
def tableStructure (t : DocTable) : Nat × Nat × List (List String) :=
  (t.rows.length, (t.rows.headD []).length, t.rows.map (List.map DocCell.text))

/-- Claim C2 counterexample: the Source Details section of the document built
by `main` contains exactly three variant tables, not five. -/
theorem sourceDetails_table_count_counterexample :
    ((sourceDetailsSection "").filterMap tableOf).length = 3 ∧ (3 : Nat) ≠ 5 :=
  ⟨rfl, by decide⟩

/-- Claim C2 (amended): for every run, the Source Details section emits three
source-details variant tables — CloudFiles, EventHub, Snapshot — one per
documented variant, in that fixed order: their body-cell texts are exactly
`cloudfiles_data`, `eventhub_data` and `snapshot_data`. -/
theorem sourceDetails_variant_tables (clock : String) :
    ((sourceDetailsSection clock).filterMap tableOf).map
        (fun t => (t.rows.drop 1).map (List.map DocCell.text)) =
      [cloudfiles_data, eventhub_data, snapshot_data] := rfl

/-- Claim C7: `main` consults no input — two runs under arbitrary ambient
clocks produce identical documents, in particular identical table structure
(same tables in the same order with the same row counts, column counts and
cell texts); the document contains its ten tables unconditionally. -/
theorem mainDoc_deterministic (c1 c2 : String) :
    (docTables (mainDoc c1)).map tableStructure = (docTables (mainDoc c2)).map tableStructure ∧
      mainDoc c1 = mainDoc c2 ∧ (docTables (mainDoc c1)).length = 10 :=
  ⟨rfl, rfl, rfl⟩

/-- Claim C9: on every run the generation-date paragraph of the title page (block
index 3) is the fixed literal `Generated: October 23, 2025`, and the emitted
document does not depend on the ambient clock at all. -/
theorem mainDoc_generated_date (clock : String) :
    ∃ d, mainDoc clock = .ok d ∧
      d.blocks[3]? = some (Block.para [{ text := "Generated: October 23, 2025" }] none none) ∧
      ∀ c : String, mainDoc c = mainDoc clock :=
  ⟨_, rfl, rfl, fun _ => rfl⟩

end SchemaDoc
